import Mathlib

/-!
Verification of the laser detection / calibration / height-inference core of
the vision_system-Plugin repository.

The Python sources embedded here are:
* `laser_detector.py` — `LaserDetector.subpixel_quadratic`, `LaserDetector.detect_laser_line`
* `laser_detection_service.py` — `LaserDetectionService.detect`
* `laser_calibration_service.py` — `LaserDetectionCalibration.calibrate`,
  `LaserDetectionCalibration.pick_best_polynomial_fit`
* `height_measuring.py` — `HeightMeasuringService.measure_at`, `pixel_to_mm`
* `config.py` — the configuration dataclasses and their `validate` methods.

Python floats are modelled as rationals (`ℚ`); Python ints as `ℤ` or `ℕ`;
images as lists of rows.  External collaborators (the OpenCV Gaussian blur,
the per-pixel temporal median, the frame source, the fitted regression
coefficients) enter as explicit function parameters, mirroring the
dependency injection used by the Python classes.
-/

namespace VisionPlugin

/-! ## Peak detector (`laser_detector.py`) -/

/-- `LaserDetector.subpixel_quadratic` (laser_detector.py lines 23–33):
parabolic refinement of a discrete peak index inside a scan line.
`arr[idx-1], arr[idx], arr[idx+1]` are read with Python float conversion;
out-of-range or degenerate denominator falls back to `float(idx)`. -/
def subpixel_quadratic (idx : ℕ) (arr : List ℚ) : ℚ :=
  if 1 ≤ idx ∧ idx < arr.length - 1 then
    let L := arr.getD (idx - 1) 0
    let C := arr.getD idx 0
    let R := arr.getD (idx + 1) 0
    let denom := L - 2 * C + R
    if denom ≠ 0 then (idx : ℚ) + (1 / 2) * (L - R) / denom
    else (idx : ℚ)
  else (idx : ℚ)

/-- A BGR pixel; `frame[:, :, 2]` selects the third (red) channel. -/
abbrev Pixel := ℚ × ℚ × ℚ

/-- An image frame: a list of rows of pixels. -/
abbrev Frame := List (List Pixel)

/-- A single-channel float image (`np.float32` grid in the source). -/
abbrev Gray := List (List ℚ)

/-- `on_frame[:, :, 2].astype(np.float32)`: extract the red channel. -/
def channel2 (f : Frame) : Gray :=
  f.map (fun row => row.map (fun p => p.2.2))

/-- `diff = on_r - off_r; diff[diff < 0] = 0` (laser_detector.py lines 60–61):
per-pixel difference with negatives clamped to zero. -/
def clampDiff (onr offr : Gray) : Gray :=
  List.zipWith (fun r1 r2 => List.zipWith (fun a b => if a - b < 0 then 0 else a - b) r1 r2)
    onr offr

/-- Width of a rectangular grid (`diff.shape[1]`). -/
def gridW (d : Gray) : ℕ := (d.headD []).length

/-- `np.max` over one scan line (0 for an empty line). -/
def listMaxQ (l : List ℚ) : ℚ := l.foldl max (l.headD 0)

/-- `np.argmax`: index of the first occurrence of the maximum. -/
def listArgmax (l : List ℚ) : ℕ :=
  (l.enum.foldl (fun acc c => if c.2 > acc.2 then c else acc) (0, l.headD 0)).1

/-- Column `j` of the grid (`diff[:, j]`). -/
def colOf (d : Gray) (j : ℕ) : List ℚ := d.map (fun row => row.getD j 0)

/-- The `axis == 'y'` branch (laser_detector.py lines 74–89): one candidate
ridge point per row whose maximum exceeds `min_intensity`; rows below the
threshold are marked `np.nan` and filtered out of `points`. -/
def detectPoints_y (minI : ℚ) (d : Gray) : List (ℚ × ℚ) :=
  d.enum.filterMap (fun c =>
    if listMaxQ c.2 > minI then
      some (subpixel_quadratic (listArgmax c.2) c.2, (c.1 : ℚ))
    else none)

/-- The `else` (axis `x`) branch (laser_detector.py lines 92–114): one
candidate ridge point per column whose maximum exceeds `min_intensity`. -/
def detectPoints_x (minI : ℚ) (d : Gray) : List (ℚ × ℚ) :=
  (List.range (gridW d)).filterMap (fun j =>
    let col := colOf d j
    if listMaxQ col > minI then
      some ((j : ℚ), subpixel_quadratic (listArgmax col) col)
    else none)

/-- `min(points, key=...)` on a non-empty list: Python's `min` keeps the first
element attaining the minimal key (later elements replace only when strictly
smaller). -/
def minByKeyFirst (key : ℚ × ℚ → ℚ) : List (ℚ × ℚ) → Option (ℚ × ℚ)
  | [] => none
  | p :: rest => some (rest.foldl (fun b q => if key q < key b then q else b) p)

/-- `closest_point` (laser_detector.py lines 117–120): ridge point closest to
the image centre `(w/2, h/2)` in squared Euclidean distance. -/
def closestPoint (h w : ℕ) (pts : List (ℚ × ℚ)) : Option (ℚ × ℚ) :=
  minByKeyFirst (fun p => (p.1 - (w : ℚ) / 2) ^ 2 + (p.2 - (h : ℚ) / 2) ^ 2) pts

/-- `cv2.minMaxLoc(diff)[3]`: location `(x, y)` of the first maximal value in
a row-major scan (strictly-greater values replace the incumbent). -/
def minMaxLocMax (d : Gray) : ℕ × ℕ :=
  let cells := (d.enum.map (fun r => r.2.enum.map (fun c => ((c.1, r.1), c.2)))).flatten
  (cells.foldl (fun acc c => if c.2 > acc.2 then c else acc)
    ((0, 0), (d.headD []).headD 0)).1

/-- Python's `round` (banker's rounding, half to even), as used by
`int(round(x))` when painting the mask. -/
def pyRound (q : ℚ) : ℤ :=
  let f := ⌊q⌋
  let frac := q - f
  if frac < 1 / 2 then f
  else if frac > 1 / 2 then f + 1
  else if f % 2 = 0 then f else f + 1

/-- `np.zeros((h, w), np.uint8)`. -/
def zerosMask (h w : ℕ) : List (List ℕ) := List.replicate h (List.replicate w 0)

/-- `mask[int(round(y)), int(round(x))] = 255` for one ridge point
(out-of-range targets are ignored; `List.set` is a no-op out of range). -/
def setMaskPoint (m : List (List ℕ)) (p : ℚ × ℚ) : List (List ℕ) :=
  let r := pyRound p.2
  let c := pyRound p.1
  if 0 ≤ r ∧ 0 ≤ c then m.set r.toNat ((m.getD r.toNat []).set c.toNat 255)
  else m

/-- The visualisation mask (laser_detector.py lines 125–127). -/
def buildMask (h w : ℕ) (pts : List (ℚ × ℚ)) : List (List ℕ) :=
  pts.foldl setMaskPoint (zerosMask h w)

/-- The blurred clamped difference image (laser_detector.py lines 58–68); the
Gaussian blur itself is the external `cv2.GaussianBlur`, injected as `blurFn`. -/
def blurredDiff (blurFn : Gray → Gray) (onf off : Frame) : Gray :=
  blurFn (clampDiff (channel2 onf) (channel2 off))

/-- Scan lines examined by `detect_laser_line` for a given axis: the rows for
`axis == 'y'`, the columns otherwise. -/
def linesOf (axis : String) (d : Gray) : List (List ℚ) :=
  if axis = "y" then d else (List.range (gridW d)).map (colOf d)

/-- `LaserDetector.detect_laser_line` (laser_detector.py lines 38–133).
Returns `(mask, bright_point, closest_point)`; the early `(None, None, None)`
exit happens only when an input frame is `None`.  `blurFn` stands for
`cv2.GaussianBlur` with the configured kernel/sigma. -/
def detect_laser_line (blurFn : Gray → Gray) (minI : ℚ)
    (onFrame offFrame : Option Frame) (axis : String) :
    Option (List (List ℕ)) × Option (ℕ × ℕ) × Option (ℚ × ℚ) :=
  match onFrame, offFrame with
  | some onf, some off =>
    let d := blurredDiff blurFn onf off
    let h := d.length
    let w := gridW d
    let points := if axis = "y" then detectPoints_y minI d else detectPoints_x minI d
    (some (buildMask h w points), some (minMaxLocMax d), closestPoint h w points)
  | _, _ => (none, none, none)

/-! ## Configuration bundles (`config.py`) -/

/-- `LaserDetectionConfig` (config.py lines 12–44): a plain dataclass; the
field defaults follow the source.  Floats are `ℚ`, ints are `ℤ`. -/
structure LaserDetectionConfig where
  min_intensity : ℚ := 10
  gaussian_blur_kernel : ℤ × ℤ := (21, 21)
  gaussian_blur_sigma : ℚ := 0
  default_axis : String := "y"
  detection_delay_ms : ℤ := 200
  image_capture_delay_ms : ℤ := 10
  detection_samples : ℤ := 5
  max_detection_retries : ℤ := 5
  use_subpixel_refinement : Bool := true
deriving Repr, DecidableEq

/-- `LaserDetectionConfig.validate` (config.py lines 33–44): the exact chain
of checks, raising (`Except.error`) with the source's messages.  Note that
`image_capture_delay_ms`, `gaussian_blur_kernel` and `gaussian_blur_sigma`
are never examined. -/
def LaserDetectionConfig.validate (c : LaserDetectionConfig) : Except String Unit :=
  if c.min_intensity < 0 then .error "min_intensity must be non-negative"
  else if c.detection_delay_ms < 0 then .error "detection_delay_ms must be non-negative"
  else if c.detection_samples < 1 then .error "detection_samples must be at least 1"
  else if c.max_detection_retries < 1 then .error "max_detection_retries must be at least 1"
  else if ¬(c.default_axis = "x" ∨ c.default_axis = "y") then
    .error "default_axis must be x or y"
  else .ok ()

/-- `LaserCalibrationConfig` (config.py lines 47–70). -/
structure LaserCalibrationConfig where
  step_size_mm : ℚ := 1
  num_iterations : ℤ := 50
  check_safety_limits : Bool := true
  calibration_velocity : ℚ := 50
  calibration_acceleration : ℚ := 10
  movement_threshold : ℚ := 1/5
  movement_timeout : ℚ := 2
  delay_between_move_detect_ms : ℤ := 1000
  calibration_detection_retries : ℤ := 3
  calibration_max_attempts : ℤ := 5
  max_polynomial_degree : ℤ := 6
deriving Repr, DecidableEq

/-- `LaserCalibrationConfig.validate` (config.py lines 72–83).  Note that
`delay_between_move_detect_ms`, `calibration_max_attempts` and the movement
threshold/timeout are never examined. -/
def LaserCalibrationConfig.validate (c : LaserCalibrationConfig) : Except String Unit :=
  if c.step_size_mm ≤ 0 then .error "step_size_mm must be positive"
  else if c.num_iterations < 2 then .error "num_iterations must be at least 2"
  else if c.calibration_velocity ≤ 0 then .error "calibration_velocity must be positive"
  else if c.calibration_acceleration ≤ 0 then .error "calibration_acceleration must be positive"
  else if c.max_polynomial_degree < 1 then .error "max_polynomial_degree must be at least 1"
  else .ok ()

/-- `HeightMeasuringConfig` (config.py lines 86–101). -/
structure HeightMeasuringConfig where
  measurement_delay_ms : ℤ := 300
  measurement_max_retries : ℤ := 5
  measurement_velocity : ℚ := 20
  measurement_acceleration : ℚ := 10
  measurement_threshold : ℚ := 1/4
  measurement_timeout : ℚ := 10
  delay_between_move_detect_ms : ℤ := 500
  calibration_filename : String := "laser_calibration.json"
deriving Repr, DecidableEq

/-- `HeightMeasuringConfig.validate` (config.py lines 103–112).  Note that
`delay_between_move_detect_ms` and the threshold/timeout are never examined. -/
def HeightMeasuringConfig.validate (c : HeightMeasuringConfig) : Except String Unit :=
  if c.measurement_delay_ms < 0 then .error "measurement_delay_ms must be non-negative"
  else if c.measurement_max_retries < 1 then .error "measurement_max_retries must be at least 1"
  else if c.measurement_velocity ≤ 0 then .error "measurement_velocity must be positive"
  else if c.measurement_acceleration ≤ 0 then .error "measurement_acceleration must be positive"
  else .ok ()

/-- `LaserDetectionModuleConfig` (config.py lines 115–121). -/
structure LaserDetectionModuleConfig where
  detection : LaserDetectionConfig
  calibration : LaserCalibrationConfig
  measuring : HeightMeasuringConfig
deriving Repr, DecidableEq

/-- `LaserDetectionModuleConfig.validate` (config.py lines 123–127). -/
def LaserDetectionModuleConfig.validate (c : LaserDetectionModuleConfig) : Except String Unit := do
  c.detection.validate
  c.calibration.validate
  c.measuring.validate

/-- `LaserDetectionModuleConfig.from_dict` (config.py lines 129–142): build
the three sub-configs from the supplied values (dictionary unpacking over
dataclass fields) and then run `validate`; a validation failure propagates
as the raised `ValueError`. -/
def LaserDetectionModuleConfig.from_dict (d : LaserDetectionConfig)
    (c : LaserCalibrationConfig) (m : HeightMeasuringConfig) :
    Except String LaserDetectionModuleConfig :=
  let cfg : LaserDetectionModuleConfig := ⟨d, c, m⟩
  match cfg.validate with
  | .ok _ => .ok cfg
  | .error e => .error e

/-! ## Acquisition protocol (`laser_detection_service.py`) -/

/-- The result triple of `LaserDetector.detect_laser_line` as consumed by the
service layers: `(mask, bright_point, closest_point)`. -/
abbrev DetTriple := Option (List (List ℕ)) × Option (ℕ × ℕ) × Option (ℚ × ℚ)

/-- Externally visible actions of one `LaserDetectionService.detect` call:
laser toggles, frame-source polls, median computations and the detector
invocation. -/
inductive AcqEvent where
  | turnOff | captureOff | medianOff | turnOn | captureOn | medianOn | runDetector
deriving Repr, DecidableEq

/-- One capture loop (laser_detection_service.py lines 79–84 / 97–102):
poll `vision_service.latest_frame` exactly `samples` times, keeping the
frames that are not `None`.  `frames` is the frame-source oracle indexed by
a global poll counter. -/
def captureFrames {F : Type} (frames : ℕ → Option F) (ctr samples : ℕ) : List F :=
  (List.range samples).filterMap (fun i => frames (ctr + i))

/-- Outcome of one attempt of the retry loop: `result` is `some` exactly when
the detector reported a `closest_point`; `ctr` is the advanced poll counter;
`events` the emitted external actions. -/
structure AttemptOut where
  result : Option DetTriple
  ctr : ℕ
  events : List AcqEvent
deriving Repr

/-- One attempt of `LaserDetectionService.detect` (laser_detection_service.py
lines 72–121): turn the laser off, capture and median the OFF frames, turn
the laser on, capture and median the ON frames, then run the detector.
`median` stands for `np.median(np.stack(...), axis=0)` and `det` for the
injected `self.detector.detect_laser_line` on the two median frames. -/
def attemptStep {F : Type} (frames : ℕ → Option F) (median : List F → F)
    (det : F → F → DetTriple) (samples : ℕ) (ctr : ℕ) : AttemptOut :=
  let offs := captureFrames frames ctr samples
  let ctr1 := ctr + samples
  let evOff := AcqEvent.turnOff :: List.replicate samples AcqEvent.captureOff
  if offs.length < samples then ⟨none, ctr1, evOff⟩
  else
    let offMed := median offs
    let ons := captureFrames frames ctr1 samples
    let ctr2 := ctr1 + samples
    let evOn := evOff ++ [AcqEvent.medianOff, AcqEvent.turnOn] ++
      List.replicate samples AcqEvent.captureOn
    if ons.length < samples then ⟨none, ctr2, evOn⟩
    else
      let onMed := median ons
      let r := det onMed offMed
      let evAll := evOn ++ [AcqEvent.medianOn, AcqEvent.runDetector]
      ⟨match r.2.2 with | some _ => some r | none => none, ctr2, evAll⟩

/-- `LaserDetectionService.detect` (laser_detection_service.py lines 52–124):
`for attempt in range(max_retries)`, running `attemptStep` per attempt and
returning the first successful triple; after exhausting the retries return
`(None, None, None)`.  The returned value also carries the concatenated
event trace and the number of attempts performed. -/
def detect {F : Type} (frames : ℕ → Option F) (median : List F → F)
    (det : F → F → DetTriple) (samples : ℕ) : ℕ → ℕ → DetTriple × List AcqEvent × ℕ
  | 0, _ => ((none, none, none), [], 0)
  | fuel + 1, ctr =>
    let a := attemptStep frames median det samples ctr
    match a.result with
    | some t => (t, a.events, 1)
    | none =>
      let rest := detect frames median det samples fuel a.ctr
      (rest.1, a.events ++ rest.2.1, rest.2.2 + 1)

/-- Poll-counter value at the start of attempt `k` when the loop starts at
counter `c`. -/
def ctrAfterFrom {F : Type} (frames : ℕ → Option F) (median : List F → F)
    (det : F → F → DetTriple) (samples : ℕ) (c : ℕ) : ℕ → ℕ
  | 0 => c
  | k + 1 => ctrAfterFrom frames median det samples
      (attemptStep frames median det samples c).ctr k

/-! ## Calibration engine (`laser_calibration_service.py`) -/

/-- State of the per-step retry loop in `calibrate`: the remaining
`max_attempts` budget, `self.prev_reading`, and `self.calibration_data`. -/
structure CalLoopState where
  attempts : ℕ
  prev : Option ℚ
  data : List (ℚ × ℚ)
deriving Repr, DecidableEq

/-- One pass of the `while max_attempts > 0` body (laser_calibration_service.py
lines 142–163), given the `closest` point returned by `detect()`:
* `closest is None` → log and `continue` (the budget is NOT decremented);
* `delta_pixels > 0` (wrong sign) → decrement and retry;
* `delta_pixels > prev_reading` (non-monotonic) → decrement, overwrite
  `prev_reading` with the rejected delta, and retry;
* otherwise accept: record `(i * step_mm, delta_pixels)` and set
  `max_attempts = 0` to leave the loop. -/
def calAttemptBody (zx height : ℚ) (s : CalLoopState) (reading : Option (ℚ × ℚ)) :
    CalLoopState :=
  match reading with
  | none => s
  | some c =>
    let delta := zx - c.1
    if delta > 0 then { s with attempts := s.attempts - 1 }
    else
      match s.prev with
      | some p =>
        if delta > p then { s with attempts := s.attempts - 1, prev := some delta }
        else ⟨0, some delta, s.data ++ [(height, delta)]⟩
      | none => ⟨0, some delta, s.data ++ [(height, delta)]⟩

/-- The `while max_attempts > 0` loop, run for at most `fuel` body passes;
`none` means the guard never became false within `fuel` passes (the Python
loop is still running).  `det` is the `laser_service.detect()` oracle indexed
by a global call counter; the returned counter accounts the calls made. -/
def calInnerLoop (zx height : ℚ) (det : ℕ → Option (ℚ × ℚ)) :
    ℕ → CalLoopState → ℕ → Option (CalLoopState × ℕ)
  | 0, s, ctr => if s.attempts = 0 then some (s, ctr) else none
  | fuel + 1, s, ctr =>
    if s.attempts = 0 then some (s, ctr)
    else calInnerLoop zx height det fuel (calAttemptBody zx height s (det ctr)) (ctr + 1)

/-- The `for i in range(1, iterations + 1)` loop of `calibrate`
(laser_calibration_service.py lines 136–163): each step moves the robot down
(an external action), then runs the retry loop at height `i * step_mm`.
`prev_reading` and the accumulated data persist across steps. -/
def calRunSteps (zx step_mm : ℚ) (maxAttempts : ℕ) (det : ℕ → Option (ℚ × ℚ))
    (fuel : ℕ) : ℕ → ℕ → Option ℚ → List (ℚ × ℚ) → ℕ →
    Option (List (ℚ × ℚ) × Option ℚ × ℕ)
  | 0, _, prev, data, ctr => some (data, prev, ctr)
  | n + 1, i, prev, data, ctr =>
    match calInnerLoop zx ((i : ℚ) * step_mm) det fuel ⟨maxAttempts, prev, data⟩ ctr with
    | none => none
    | some (s, ctr2) => calRunSteps zx step_mm maxAttempts det fuel n (i + 1) s.prev s.data ctr2

/-- The `ValueError` message raised by sklearn's `KFold.split` when asked for
more folds than samples. -/
def kfoldSplitsError : String :=
  "Cannot have number of splits n_splits=5 greater than the number of samples"

/-- Modelled from the external sklearn library: `cross_val_score(model, X, y,
scoring=neg_mean_squared_error, cv=5)` (laser_calibration_service.py lines
228–235).  sklearn's `KFold(n_splits=5)` raises `ValueError` whenever
`n_samples < 5`; otherwise the call returns a mean-squared error, which we
keep abstract as the oracle `cvMse degree`. -/
def cross_val_score_mse (nSamples : ℕ) (cvMse : ℕ → ℚ) (degree : ℕ) : Except String ℚ :=
  if nSamples < 5 then .error kfoldSplitsError else .ok (cvMse degree)

/-- The running selection state of `pick_best_polynomial_fit`: `best_mse`
(`none` is the initial `np.inf`), `best_degree`, and the parameters of the
most recent `best_model.fit(...)` on the full sample set (`none` until the
first fit). -/
structure SelState where
  bestMse : Option ℚ
  bestDegree : ℕ
  fitted : Option (List ℚ × ℚ)
deriving Repr, DecidableEq

/-- One iteration of the degree-selection loop (laser_calibration_service.py
lines 219–247): score the candidate degree by 5-fold CV, replace the
incumbent only on a strictly smaller MSE, then refit the incumbent's model
on the full sample set (`best_model.fit(best_poly.fit_transform(deltas),
heights)` runs on every iteration).  `fullFit d` abstracts the ordinary
least-squares coefficients/intercept of degree `d` on the full sample set. -/
def selStep (nSamples : ℕ) (cvMse : ℕ → ℚ) (fullFit : ℕ → List ℚ × ℚ)
    (s : SelState) (degree : ℕ) : Except String SelState := do
  let mse ← cross_val_score_mse nSamples cvMse degree
  let s1 := if (match s.bestMse with | none => true | some b => decide (mse < b) : Bool)
            then (⟨some mse, degree, s.fitted⟩ : SelState) else s
  pure ⟨s1.bestMse, s1.bestDegree, some (fullFit s1.bestDegree)⟩

/-- `LaserDetectionCalibration.pick_best_polynomial_fit`
(laser_calibration_service.py lines 191–259): fewer than 3 samples → warn and
return `None` (no model, nothing saved); otherwise fold the selection step
over degrees `1..max_degree` (a sklearn `ValueError` propagates). -/
def pick_best_polynomial_fit (samples : List (ℚ × ℚ)) (maxDegree : ℕ)
    (cvMse : ℕ → ℚ) (fullFit : ℕ → List ℚ × ℚ) : Except String (Option SelState) :=
  if samples.length < 3 then .ok none
  else do
    let final ← (List.range' 1 maxDegree).foldlM (selStep samples.length cvMse fullFit)
      ⟨none, 1, none⟩
    pure (some final)

/-- The effect of one selection-loop iteration when cross-validation cannot
raise (at least 5 samples): the pure counterpart of `selStep`. -/
def pureSel (cvMse : ℕ → ℚ) (fullFit : ℕ → List ℚ × ℚ) (s : SelState) (degree : ℕ) :
    SelState :=
  let mse := cvMse degree
  let s1 := if (match s.bestMse with | none => true | some b => decide (mse < b) : Bool)
            then (⟨some mse, degree, s.fitted⟩ : SelState) else s
  ⟨s1.bestMse, s1.bestDegree, some (fullFit s1.bestDegree)⟩

/-- What a finished `calibrate` call leaves behind: its return value, the
artifact written to storage (`none` when `save_calibration` was never
reached), and the accumulated sample list. -/
structure CalOutcome where
  success : Bool
  persisted : Option SelState
  data : List (ℚ × ℚ)
deriving Repr, DecidableEq

/-- `LaserDetectionCalibration.calibrate` (laser_calibration_service.py lines
107–169).  The zero-reference detection is `det 0`; failure aborts with
`False`.  Then the stepping loop runs (outer `Option` is `none` if some
step's retry loop exceeded its `fuel` budget without exiting), and finally
`pick_best_polynomial_fit` + `save_calibration`, after which `calibrate`
returns `True` unconditionally. -/
def calibrate (iterations : ℕ) (step_mm : ℚ) (maxAttempts : ℕ) (maxDegree : ℕ)
    (det : ℕ → Option (ℚ × ℚ)) (cvMse : ℕ → ℚ) (fullFit : ℕ → List ℚ × ℚ)
    (fuel : ℕ) : Option (Except String CalOutcome) :=
  match det 0 with
  | none => some (.ok ⟨false, none, []⟩)
  | some z =>
    match calRunSteps z.1 step_mm maxAttempts det fuel iterations 1 none [(0, 0)] 1 with
    | none => none
    | some (data, _, _) =>
      match pick_best_polynomial_fit data maxDegree cvMse fullFit with
      | .error e => some (.error e)
      | .ok fit => some (.ok ⟨true, fit, data⟩)

/-! ## Height inference service (`height_measuring.py`) -/

/-- The reconstructed polynomial section of a persisted calibration
artifact. -/
structure PolyModel where
  degree : ℕ
  coefficients : List ℚ
  intercept : ℚ
deriving Repr, DecidableEq

/-- `PolynomialFeatures(degree).fit_transform([[x]])`: the feature row
`[1, x, x², …, x^degree]`. -/
def polyFeatures (degree : ℕ) (x : ℚ) : List ℚ :=
  (List.range (degree + 1)).map (fun k => x ^ k)

/-- Dot product of coefficient and feature vectors
(`LinearRegression.predict`). -/
def dotQ (a b : List ℚ) : ℚ := (List.zipWith (fun x y => x * y) a b).sum

/-- `HeightMeasuringService.pixel_to_mm` (height_measuring.py lines 93–101):
raise when no model is loaded, otherwise evaluate the stored linear model on
the polynomial feature expansion of the scalar input. -/
def pixel_to_mm (model : Option PolyModel) (pixel_delta : ℚ) : Except String ℚ :=
  match model with
  | none => .error "Polynomial model not loaded. Call load_calibration_curve() first."
  | some m => .ok (dotQ m.coefficients (polyFeatures m.degree pixel_delta) + m.intercept)

/-- The value computation of `HeightMeasuringService.measure_at`
(height_measuring.py lines 138–162) after the move and settle delay: from
the acquisition's `closest` point and the loaded `zero_reference_coords`,
either `None` (no reading) or `(pixel_to_mm(pixel_delta), pixel_delta)` with
`pixel_delta = zero_reference_x - detected_x`.  `p2m` is the service's own
`pixel_to_mm`; the second component of the result records the arguments it
was applied to, so that the number of calls is part of the semantics. -/
def measure_at (zeroRef : ℚ × ℚ) (closest : Option (ℚ × ℚ)) (p2m : ℚ → ℚ) :
    Option (ℚ × ℚ) × List ℚ :=
  match closest with
  | none => (none, [])
  | some c =>
    let pixel_delta := zeroRef.1 - c.1
    (some (p2m pixel_delta, pixel_delta), [pixel_delta])

/-! ## Concrete fixtures used by witnesses and counterexamples -/

/-- A 3×3 frame with red channel 7 everywhere. -/
def identFrame3 : Frame := List.replicate 3 (List.replicate 3 (0, 0, 7))

/-- A 2×2 frame with red channel 3 everywhere. -/
def identFrame2 : Frame := List.replicate 2 (List.replicate 2 (0, 0, 3))

/-- A detection config differing from the defaults only in a negative
inter-frame capture delay. -/
def badDetectionConfig : LaserDetectionConfig := { image_capture_delay_ms := -5 }

/-- Detection oracle for a calibration run: the zero reference and every
step reading sit at pixel x = 100 (delta 0, accepted at once). -/
def constDet : ℕ → Option (ℚ × ℚ) := fun _ => some (100, 50)

/-- Detection oracle for a calibration run whose single step always reads on
the wrong side of zero: the zero reference is at pixel x = 90, every later
reading at x = 80 (delta 10 > 0, rejected by the sign filter). -/
def wrongSideDet : ℕ → Option (ℚ × ℚ) :=
  fun k => if k = 0 then some (90, 50) else some (80, 50)

/-- The spec's linear three-sample example: heights 0, 1, 2 at pixel deltas
0, −0.5, −1. -/
def linSamples : List (ℚ × ℚ) := [(0, 0), (1, -1/2), (2, -1)]

/-- Five collinear samples, enough for 5-fold cross-validation. -/
def fiveSamples : List (ℚ × ℚ) :=
  [(0, 0), (1, -1/2), (2, -1), (3, -3/2), (4, -2)]

/-! ## Theorems -/

/-- C5: `subpixel_quadratic` returns `idx + 0.5·(L−R)/(L−2C+R)` for an
interior index with non-degenerate denominator, and falls back to the
unrefined index `float(idx)` for a boundary index or a zero denominator. -/
theorem subpixel_quadratic_spec (idx : ℕ) (arr : List ℚ) :
    (∀ (_ : 1 ≤ idx) (_ : idx < arr.length - 1)
       (_ : arr.getD (idx-1) 0 - 2 * arr.getD idx 0 + arr.getD (idx+1) 0 ≠ 0),
       subpixel_quadratic idx arr
         = (idx : ℚ) + (1/2) * (arr.getD (idx-1) 0 - arr.getD (idx+1) 0)
             / (arr.getD (idx-1) 0 - 2 * arr.getD idx 0 + arr.getD (idx+1) 0))
    ∧ ((¬ (1 ≤ idx ∧ idx < arr.length - 1) ∨
        arr.getD (idx-1) 0 - 2 * arr.getD idx 0 + arr.getD (idx+1) 0 = 0) →
       subpixel_quadratic idx arr = (idx : ℚ)) := by
  constructor
  · intro h1 h2 h3
    simp only [subpixel_quadratic]
    rw [if_pos ⟨h1, h2⟩, if_pos h3]
  · intro h
    simp only [subpixel_quadratic]
    rcases h with h | h
    · rw [if_neg h]
    · by_cases hb : 1 ≤ idx ∧ idx < arr.length - 1
      · rw [if_pos hb, if_neg (not_not_intro h)]
      · rw [if_neg hb]

/-- C5 witness: the symmetric peak `[10, 50, 10]` at index 1 refines to
exactly 1, and `[10, 30, 50]` at the boundary index 2 falls back to 2. -/
theorem subpixel_quadratic_spec_witness :
    subpixel_quadratic 1 [10, 50, 10] = 1 ∧ subpixel_quadratic 2 [10, 30, 50] = 2 := by
  constructor
  · have h := (subpixel_quadratic_spec 1 [10, 50, 10]).1
      (by norm_num) (by norm_num) (by norm_num [List.getD])
    rw [h]; norm_num [List.getD]
  · have h := (subpixel_quadratic_spec 2 [10, 30, 50]).2 (by norm_num)
    rw [h]; norm_num

/-- C1 (amended): when no scan line is accepted (every scan line's maximum is
at most `min_intensity`), `detect_laser_line` does NOT return
`(None, None, None)`: it returns the all-zero visualisation mask, the
`cv2.minMaxLoc` maximum location of the blurred difference, and
`closest_point = None`.  Only the latter is `None`. -/
theorem detect_laser_line_no_scanline (blurFn : Gray → Gray) (minI : ℚ)
    (onf off : Frame) (axis : String)
    (hno : ∀ l ∈ linesOf axis (blurredDiff blurFn onf off), ¬ listMaxQ l > minI) :
    detect_laser_line blurFn minI (some onf) (some off) axis
      = (some (zerosMask (blurredDiff blurFn onf off).length
                (gridW (blurredDiff blurFn onf off))),
         some (minMaxLocMax (blurredDiff blurFn onf off)), none) := by
  set d := blurredDiff blurFn onf off with hd
  have hpts : (if axis = "y" then detectPoints_y minI d else detectPoints_x minI d) = [] := by
    split_ifs with hax
    · rw [detectPoints_y, List.filterMap_eq_nil_iff]
      intro c hc
      have hrow : c.2 ∈ d := by
        rw [List.mem_enum_iff_getElem?] at hc
        exact List.getElem?_mem hc
      have := hno c.2 (by rw [linesOf, if_pos hax]; exact hrow)
      simp only [this, if_false, ite_eq_right_iff]
    · rw [detectPoints_x, List.filterMap_eq_nil_iff]
      intro j hj
      have := hno (colOf d j) (by
        rw [linesOf, if_neg hax]
        exact List.mem_map_of_mem (colOf d) hj)
      simp only [ite_eq_right_iff]
      intro hcon; exact absurd hcon this
  simp only [detect_laser_line, ← hd, hpts, buildMask, closestPoint, minByKeyFirst,
    List.foldl_nil]

/-- C1 witness: two identical 2×2 frames under an identity blur accept no
scan line, and the amended result shape holds. -/
theorem detect_laser_line_no_scanline_witness :
    detect_laser_line id 10 (some identFrame2) (some identFrame2) "y"
      = (some (zerosMask 2 2), some (0, 0), none) := by
  have h := detect_laser_line_no_scanline id 10 identFrame2 identFrame2 "y" (by
    norm_num [linesOf, blurredDiff, channel2, clampDiff, identFrame2, listMaxQ,
      List.replicate])
  rw [h]
  norm_num [blurredDiff, channel2, clampDiff, identFrame2, minMaxLocMax, gridW,
    List.enum, List.enumFrom, List.replicate]

/-- C1 counterexample: on two identical 3×3 frames (clamped difference zero
everywhere, so no scan-line maximum exceeds `min_intensity = 10`),
`detect_laser_line` does not return the `(None, None, None)` triple claimed
by the spec — the mask and bright point are present. -/
theorem detect_laser_line_identical_counterexample :
    detect_laser_line id 10 (some identFrame3) (some identFrame3) "y" ≠ (none, none, none) := by
  have h : detect_laser_line id 10 (some identFrame3) (some identFrame3) "y"
      = (some (zerosMask 3 3), some (0, 0), none) := by
    norm_num [detect_laser_line, blurredDiff, channel2, clampDiff, identFrame3, detectPoints_y,
      listMaxQ, listArgmax, minMaxLocMax, closestPoint, minByKeyFirst, buildMask,
      zerosMask, gridW, List.enum, List.enumFrom, List.replicate]
  rw [h]; simp

/-- C4: when detection succeeds with closest point `(dx, dy)` and the loaded
zero reference is `zeroRef`, `measure_at` returns the pair
`(pixel_to_mm(zero_x − dx), zero_x − dx)`; the call log shows `pixel_to_mm`
applied exactly once, to `zero_x − dx`, with its result returned
unmodified.  The spec's instance follows with `zeroRef = (640, 360)` and
`(dx, dy) = (630, 360)`, giving `pixel_delta = 10`. -/
theorem measure_at_spec (zeroRef : ℚ × ℚ) (dx dy : ℚ) (p2m : ℚ → ℚ) :
    measure_at zeroRef (some (dx, dy)) p2m
      = (some (p2m (zeroRef.1 - dx), zeroRef.1 - dx), [zeroRef.1 - dx]) := rfl

/-- C10: a detection attempt rejected by the non-monotonicity filter (its
delta is on the accepted side of zero but compares greater than
`prev_reading`) decrements the attempt budget, records no sample, and still
overwrites `prev_reading` with the rejected delta. -/
theorem calAttemptBody_nonmonotonic_overwrites_prev (zx height : ℚ) (s : CalLoopState)
    (c : ℚ × ℚ) (p : ℚ) (hprev : s.prev = some p) (hsign : ¬ zx - c.1 > 0)
    (hmono : zx - c.1 > p) :
    calAttemptBody zx height s (some c)
      = ⟨s.attempts - 1, some (zx - c.1), s.data⟩ := by
  obtain ⟨a, pr, dt⟩ := s
  simp only at hprev
  subst hprev
  simp only [calAttemptBody]
  rw [if_neg hsign, if_pos hmono]

/-- C10 witness: zero reference at x = 100, detection at x = 102 gives
delta −2, rejected against previous reading −5 yet stored as the new
`prev_reading`. -/
theorem calAttemptBody_nonmonotonic_overwrites_prev_witness :
    calAttemptBody 100 1 ⟨5, some (-5), []⟩ (some (102, 40)) = ⟨4, some (-2), []⟩ := by
  have h := calAttemptBody_nonmonotonic_overwrites_prev 100 1 ⟨5, some (-5), []⟩
    (102, 40) (-5) rfl (by norm_num) (by norm_num)
  rw [h]
  norm_num

/-- C3 refutation (code bug): an attempt whose detection yields no closest
point does not consume the bounded attempt budget — the body leaves the loop
state untouched, so with a persistently failing detector the
`while max_attempts > 0` loop never terminates: for every fuel bound the
loop is still running. -/
theorem calInnerLoop_none_reading_diverges (zx height : ℚ) (det : ℕ → Option (ℚ × ℚ))
    (hdet : ∀ k, det k = none) (s : CalLoopState) (hs : s.attempts ≠ 0) :
    ∀ fuel ctr, calInnerLoop zx height det fuel s ctr = none := by
  intro fuel
  induction fuel with
  | zero => intro ctr; simp [calInnerLoop, hs]
  | succ n ih =>
    intro ctr
    simp only [calInnerLoop, if_neg hs, hdet ctr]
    exact ih (ctr + 1)

/-- C3 witness: a detector returning no point at every call leaves the retry
loop of a step running after 7 body passes, budget 5 notwithstanding. -/
theorem calInnerLoop_none_reading_diverges_witness :
    calInnerLoop 0 1 (fun _ => none) 7 ⟨5, none, []⟩ 0 = none :=
  calInnerLoop_none_reading_diverges 0 1 (fun _ => none) (fun _ => rfl)
    ⟨5, none, []⟩ (by norm_num) 7 0

/-- C9 counterexample: a `LaserDetectionConfig` with the negative delay
`image_capture_delay_ms = −5` is accepted by the full `from_dict`
validation — the config bundles do not reject every invalid parameter, and
plain dataclass construction never validates at all. -/
theorem validate_accepts_negative_capture_delay :
    (LaserDetectionModuleConfig.from_dict badDetectionConfig {} {}).isOk = true
      ∧ badDetectionConfig.image_capture_delay_ms < 0 := by
  constructor
  · norm_num [LaserDetectionModuleConfig.from_dict, LaserDetectionModuleConfig.validate,
      LaserDetectionConfig.validate, LaserCalibrationConfig.validate,
      HeightMeasuringConfig.validate, badDetectionConfig, Bind.bind, Except.bind,
      Except.isOk, Except.toBool]
  · norm_num [badDetectionConfig]

/-- C9 (amended): validation runs only when `validate` is invoked (as
`from_dict` does, not plain construction), and a configuration accepted by
`from_dict` satisfies exactly the checked bounds: non-negative
`min_intensity`, `detection_delay_ms` and `measurement_delay_ms`, sample,
retry and degree counts at least 1 (iterations at least 2), positive step
size, velocities and accelerations, and axis in {x, y}.
`image_capture_delay_ms` and `delay_between_move_detect_ms` are not
checked. -/
theorem from_dict_checked_bounds (d : LaserDetectionConfig) (c : LaserCalibrationConfig)
    (m : HeightMeasuringConfig) (cfg : LaserDetectionModuleConfig)
    (h : LaserDetectionModuleConfig.from_dict d c m = .ok cfg) :
    cfg = ⟨d, c, m⟩ ∧ 0 ≤ d.min_intensity ∧ 0 ≤ d.detection_delay_ms ∧
    1 ≤ d.detection_samples ∧ 1 ≤ d.max_detection_retries ∧
    (d.default_axis = "x" ∨ d.default_axis = "y") ∧
    0 < c.step_size_mm ∧ 2 ≤ c.num_iterations ∧ 0 < c.calibration_velocity ∧
    0 < c.calibration_acceleration ∧ 1 ≤ c.max_polynomial_degree ∧
    0 ≤ m.measurement_delay_ms ∧ 1 ≤ m.measurement_max_retries ∧
    0 < m.measurement_velocity ∧ 0 < m.measurement_acceleration := by
  simp only [LaserDetectionModuleConfig.from_dict] at h
  cases hv : LaserDetectionModuleConfig.validate ⟨d, c, m⟩ with
  | error e => rw [hv] at h; cases h
  | ok u =>
    rw [hv] at h
    injection h with h
    refine ⟨h.symm, ?_⟩
    unfold LaserDetectionModuleConfig.validate at hv
    cases hd : d.validate with
    | error e => simp [Bind.bind, Except.bind, hd] at hv
    | ok _ =>
      cases hc : c.validate with
      | error e => simp [Bind.bind, Except.bind, hd, hc] at hv
      | ok _ =>
        cases hm : m.validate with
        | error e => simp [Bind.bind, Except.bind, hd, hc, hm] at hv
        | ok _ =>
          clear hv h
          unfold LaserDetectionConfig.validate at hd
          unfold LaserCalibrationConfig.validate at hc
          unfold HeightMeasuringConfig.validate at hm
          split_ifs at hd with h1 h2 h3 h4 h5
          split_ifs at hc with h6 h7 h8 h9 h10
          split_ifs at hm with h11 h12 h13 h14
          exact ⟨not_lt.mp h1, not_lt.mp h2, not_lt.mp h3, not_lt.mp h4,
            h5, not_le.mp h6, not_lt.mp h7, not_le.mp h8,
            not_le.mp h9, not_lt.mp h10, not_lt.mp h11, not_lt.mp h12,
            not_le.mp h13, not_le.mp h14⟩

/-- C9 witness: the default configuration passes `from_dict` and satisfies
the checked bounds. -/
theorem from_dict_checked_bounds_witness :
    (⟨{}, {}, {}⟩ : LaserDetectionModuleConfig)
        = ⟨({} : LaserDetectionConfig), ({} : LaserCalibrationConfig),
           ({} : HeightMeasuringConfig)⟩ ∧
    0 ≤ ({} : LaserDetectionConfig).min_intensity ∧
    0 ≤ ({} : LaserDetectionConfig).detection_delay_ms ∧
    1 ≤ ({} : LaserDetectionConfig).detection_samples ∧
    1 ≤ ({} : LaserDetectionConfig).max_detection_retries ∧
    (({} : LaserDetectionConfig).default_axis = "x" ∨
      ({} : LaserDetectionConfig).default_axis = "y") ∧
    0 < ({} : LaserCalibrationConfig).step_size_mm ∧
    2 ≤ ({} : LaserCalibrationConfig).num_iterations ∧
    0 < ({} : LaserCalibrationConfig).calibration_velocity ∧
    0 < ({} : LaserCalibrationConfig).calibration_acceleration ∧
    1 ≤ ({} : LaserCalibrationConfig).max_polynomial_degree ∧
    0 ≤ ({} : HeightMeasuringConfig).measurement_delay_ms ∧
    1 ≤ ({} : HeightMeasuringConfig).measurement_max_retries ∧
    0 < ({} : HeightMeasuringConfig).measurement_velocity ∧
    0 < ({} : HeightMeasuringConfig).measurement_acceleration :=
  from_dict_checked_bounds {} {} {} ⟨{}, {}, {}⟩ (by
    norm_num [LaserDetectionModuleConfig.from_dict, LaserDetectionModuleConfig.validate,
      LaserDetectionConfig.validate, LaserCalibrationConfig.validate,
      HeightMeasuringConfig.validate, Bind.bind, Except.bind])

/-- C2 counterexample: a run that collects only 2 samples (the zero
reference and one accepted step) fits no model and persists nothing — yet
`calibrate` returns `True`, so its reported success does not reflect the
insufficient-data abort. -/
theorem calibrate_two_samples_reports_success :
    calibrate 1 1 5 6 constDet (fun _ => 0) (fun _ => ([], 0)) 3
      = some (.ok ⟨true, none, [(0, 0), (1, 0)]⟩) := by
  norm_num [calibrate, constDet, calRunSteps, calInnerLoop, calAttemptBody,
    pick_best_polynomial_fit]

/-- C2 (amended): a calibration run that completes with fewer than 3
accumulated samples fits no polynomial model and persists no artifact, but
whenever the zero-reference detection succeeded (a non-empty sample list)
`calibrate` nevertheless returns `True`. -/
theorem calibrate_insufficient_data (iterations : ℕ) (step_mm : ℚ)
    (maxAttempts maxDegree : ℕ) (det : ℕ → Option (ℚ × ℚ)) (cvMse : ℕ → ℚ)
    (fullFit : ℕ → List ℚ × ℚ) (fuel : ℕ) (out : CalOutcome)
    (h : calibrate iterations step_mm maxAttempts maxDegree det cvMse fullFit fuel
          = some (.ok out))
    (hlen : out.data.length < 3) :
    out.persisted = none ∧ (out.data ≠ [] → out.success = true) := by
  unfold calibrate at h
  cases hz : det 0 with
  | none =>
    rw [hz] at h
    injection h with h
    injection h with h
    rw [← h]
    simp
  | some z =>
    rw [hz] at h
    dsimp only [] at h
    cases hr : calRunSteps z.1 step_mm maxAttempts det fuel iterations 1 none [(0, 0)] 1 with
    | none => rw [hr] at h; cases h
    | some triple =>
      obtain ⟨data, prev2, ctr2⟩ := triple
      rw [hr] at h
      dsimp only [] at h
      cases hp : pick_best_polynomial_fit data maxDegree cvMse fullFit with
      | error e => rw [hp] at h; injection h with h; cases h
      | ok fit =>
        rw [hp] at h
        injection h with h
        injection h with h
        rw [← h] at hlen ⊢
        have hfit : fit = none := by
          unfold pick_best_polynomial_fit at hp
          rw [if_pos hlen] at hp
          injection hp with hp
          exact hp.symm
        simp [hfit]

/-- C2 witness: a run whose only step is always rejected by the sign filter
ends with the single zero sample; the amended conclusions hold for it. -/
theorem calibrate_insufficient_data_witness :
    (⟨true, none, [(0, 0)]⟩ : CalOutcome).persisted = none ∧
    ((⟨true, none, [(0, 0)]⟩ : CalOutcome).data ≠ [] →
      (⟨true, none, [(0, 0)]⟩ : CalOutcome).success = true) :=
  calibrate_insufficient_data 1 1 5 6 wrongSideDet (fun _ => 0) (fun _ => ([], 0)) 6
    ⟨true, none, [(0, 0)]⟩
    (by norm_num [calibrate, wrongSideDet, calRunSteps, calInnerLoop, calAttemptBody,
      pick_best_polynomial_fit])
    (by norm_num)

-- Degree-range helpers for the model-selection proof.
lemma range'_one_concat (s n : ℕ) : List.range' s (n + 1) = List.range' s n ++ [s + n] := by
  have := @List.range'_concat 1 s n
  simpa using this

-- With at least 5 samples, one selection step cannot raise.
lemma selStep_eq_ok (nSamples : ℕ) (cvMse : ℕ → ℚ) (fullFit : ℕ → List ℚ × ℚ)
    (h5 : ¬ nSamples < 5) (s : SelState) (d : ℕ) :
    selStep nSamples cvMse fullFit s d = .ok (pureSel cvMse fullFit s d) := by
  simp [selStep, cross_val_score_mse, h5, pureSel, Bind.bind, Except.bind,
    Pure.pure, Except.pure]

-- With at least 5 samples, the whole selection fold is pure.
lemma foldlM_selStep (nSamples : ℕ) (cvMse : ℕ → ℚ) (fullFit : ℕ → List ℚ × ℚ)
    (h5 : ¬ nSamples < 5) (l : List ℕ) :
    ∀ s : SelState,
      l.foldlM (selStep nSamples cvMse fullFit) s
        = .ok (l.foldl (pureSel cvMse fullFit) s) := by
  induction l with
  | nil => intro s; rfl
  | cons d ds ih =>
    intro s
    rw [List.foldlM_cons, selStep_eq_ok nSamples cvMse fullFit h5]
    simp only [List.foldl_cons, Bind.bind, Except.bind]
    exact ih (pureSel cvMse fullFit s d)

-- Invariant of the degree-selection fold over degrees 1..m: the incumbent is
-- the first degree attaining the minimal CV-MSE, refitted on the full data.
lemma pureSel_fold_invariant (cvMse : ℕ → ℚ) (fullFit : ℕ → List ℚ × ℚ) :
    ∀ m : ℕ, 1 ≤ m →
      (fun st : SelState =>
        1 ≤ st.bestDegree ∧ st.bestDegree ≤ m ∧
        st.bestMse = some (cvMse st.bestDegree) ∧
        (∀ d, 1 ≤ d → d ≤ m → cvMse st.bestDegree ≤ cvMse d) ∧
        (∀ d, 1 ≤ d → d < st.bestDegree → cvMse st.bestDegree < cvMse d) ∧
        st.fitted = some (fullFit st.bestDegree))
      ((List.range' 1 m).foldl (pureSel cvMse fullFit) ⟨none, 1, none⟩) := by
  intro m
  induction m with
  | zero => intro h; omega
  | succ n ih =>
    intro _
    rcases Nat.eq_zero_or_pos n with hn | hn
    · subst hn
      have hval : (List.range' 1 1).foldl (pureSel cvMse fullFit) ⟨none, 1, none⟩
          = (⟨some (cvMse 1), 1, some (fullFit 1)⟩ : SelState) := by
        simp [List.range', pureSel]
      rw [hval]
      dsimp only
      refine ⟨le_refl 1, le_refl 1, rfl, ?_, ?_, rfl⟩
      · intro d hd1 hd2
        have hd : d = 1 := by omega
        rw [hd]
      · intro d h1 h2; omega
    · have hIH := ih hn
      rw [range'_one_concat, List.foldl_append, List.foldl_cons, List.foldl_nil]
      set st := (List.range' 1 n).foldl (pureSel cvMse fullFit) ⟨none, 1, none⟩ with hst
      obtain ⟨hb1, hbn, hmse, hmin, hstrict, hfit⟩ := hIH
      by_cases hlt : cvMse (1 + n) < cvMse st.bestDegree
      · have hdeg2 : (pureSel cvMse fullFit st (1 + n)).bestDegree = 1 + n := by
          simp [pureSel, hmse, hlt]
        have hmse2 : (pureSel cvMse fullFit st (1 + n)).bestMse = some (cvMse (1 + n)) := by
          simp [pureSel, hmse, hlt]
        have hfit2 : (pureSel cvMse fullFit st (1 + n)).fitted = some (fullFit (1 + n)) := by
          simp [pureSel, hmse, hlt]
        rw [hdeg2, hmse2, hfit2]
        refine ⟨by omega, by omega, rfl, ?_, ?_, rfl⟩
        · intro d h1 h2
          rcases Nat.lt_or_ge d (1 + n) with hd | hd
          · exact le_of_lt (lt_of_lt_of_le hlt (hmin d h1 (by omega)))
          · have hde : d = 1 + n := by omega
            rw [hde]
        · intro d h1 h2
          exact lt_of_lt_of_le hlt (hmin d h1 (by omega))
      · have hdeg2 : (pureSel cvMse fullFit st (1 + n)).bestDegree = st.bestDegree := by
          simp [pureSel, hmse, hlt]
        have hmse2 : (pureSel cvMse fullFit st (1 + n)).bestMse = st.bestMse := by
          simp [pureSel, hmse, hlt]
        have hfit2 : (pureSel cvMse fullFit st (1 + n)).fitted
            = some (fullFit st.bestDegree) := by
          simp [pureSel, hmse, hlt]
        rw [hdeg2, hmse2, hfit2]
        refine ⟨hb1, by omega, hmse, ?_, hstrict, rfl⟩
        intro d h1 h2
        rcases Nat.lt_or_ge d (1 + n) with hd | hd
        · exact hmin d h1 (by omega)
        · have hde : d = 1 + n := by omega
          rw [hde]
          exact not_lt.mp hlt

/-- C6 (amended): with at least 5 samples (so that 5-fold cross-validation
is well-posed) and `max_degree ≥ 1`, `pick_best_polynomial_fit` selects the
lowest degree attaining the strictly minimal CV-MSE over degrees
`1..max_degree` (a later degree replaces the incumbent only when strictly
better), and the stored model parameters are the full-sample refit of the
selected degree.  With only 3 or 4 samples the sklearn call raises instead
(see the counterexample). -/
theorem pick_best_selects_first_minimum (samples : List (ℚ × ℚ)) (maxDegree : ℕ)
    (cvMse : ℕ → ℚ) (fullFit : ℕ → List ℚ × ℚ)
    (h5 : 5 ≤ samples.length) (hdeg : 1 ≤ maxDegree) :
    ∃ st : SelState,
      pick_best_polynomial_fit samples maxDegree cvMse fullFit = .ok (some st) ∧
      1 ≤ st.bestDegree ∧ st.bestDegree ≤ maxDegree ∧
      st.bestMse = some (cvMse st.bestDegree) ∧
      (∀ d, 1 ≤ d → d ≤ maxDegree → cvMse st.bestDegree ≤ cvMse d) ∧
      (∀ d, 1 ≤ d → d < st.bestDegree → cvMse st.bestDegree < cvMse d) ∧
      st.fitted = some (fullFit st.bestDegree) := by
  have hlen3 : ¬ samples.length < 3 := by omega
  have h5n : ¬ samples.length < 5 := by omega
  refine ⟨(List.range' 1 maxDegree).foldl (pureSel cvMse fullFit) ⟨none, 1, none⟩, ?_,
    pureSel_fold_invariant cvMse fullFit maxDegree hdeg⟩
  unfold pick_best_polynomial_fit
  rw [if_neg hlen3]
  rw [foldlM_selStep samples.length cvMse fullFit h5n]
  rfl

/-- C6 counterexample: on the spec's own 3-sample example
`(0,0), (1,−0.5), (2,−1)`, `pick_best_polynomial_fit` does not select degree
1 — the very first `cross_val_score(cv=5)` call raises sklearn's
`n_splits > n_samples` `ValueError`, because 5 folds cannot be formed from
3 samples. -/
theorem pick_best_three_samples_raises :
    pick_best_polynomial_fit linSamples 6 (fun _ => 0) (fun _ => ([], 0))
      = .error kfoldSplitsError := by
  norm_num [pick_best_polynomial_fit, linSamples, selStep, cross_val_score_mse,
    List.range', Bind.bind, Except.bind]

/-- C6 witness: five collinear samples with CV-MSE oracle `d ↦ d` over
degrees 1..2 select degree 1, with the full-data refit of degree 1 stored. -/
theorem pick_best_selects_first_minimum_witness :
    ∃ st : SelState,
      pick_best_polynomial_fit fiveSamples 2 (fun d => (d : ℚ)) (fun d => ([(d : ℚ)], 0))
        = .ok (some st) ∧
      1 ≤ st.bestDegree ∧ st.bestDegree ≤ 2 ∧
      st.bestMse = some ((st.bestDegree : ℚ)) ∧
      (∀ d : ℕ, 1 ≤ d → d ≤ 2 → (st.bestDegree : ℚ) ≤ (d : ℚ)) ∧
      (∀ d : ℕ, 1 ≤ d → d < st.bestDegree → (st.bestDegree : ℚ) < (d : ℚ)) ∧
      st.fitted = some ([(st.bestDegree : ℚ)], 0) :=
  pick_best_selects_first_minimum fiveSamples 2 (fun d => (d : ℚ))
    (fun d => ([(d : ℚ)], 0)) (by norm_num [fiveSamples]) (by norm_num)

-- All attempts up to the fuel bound failing, `detect` exhausts its retries.
lemma detect_exhaust {F : Type} (frames : ℕ → Option F) (median : List F → F)
    (det : F → F → DetTriple) (samples : ℕ) :
    ∀ (fuel c : ℕ),
      (∀ k, k < fuel → (attemptStep frames median det samples
          (ctrAfterFrom frames median det samples c k)).result = none) →
      (detect frames median det samples fuel c).1 = (none, none, none) ∧
      (detect frames median det samples fuel c).2.2 = fuel := by
  intro fuel
  induction fuel with
  | zero => intro c _; exact ⟨rfl, rfl⟩
  | succ n ih =>
    intro c hfail
    have h0 : (attemptStep frames median det samples c).result = none :=
      hfail 0 (Nat.succ_pos n)
    have hrest := ih (attemptStep frames median det samples c).ctr
      (fun k hk => hfail (k + 1) (Nat.succ_lt_succ hk))
    simp only [detect, h0]
    exact ⟨hrest.1, by rw [hrest.2]⟩

-- The first successful attempt returns immediately with its own result.
lemma detect_first_succ {F : Type} (frames : ℕ → Option F) (median : List F → F)
    (det : F → F → DetTriple) (samples : ℕ) :
    ∀ (j fuel c : ℕ) (t : DetTriple), j < fuel →
      (∀ k, k < j → (attemptStep frames median det samples
          (ctrAfterFrom frames median det samples c k)).result = none) →
      (attemptStep frames median det samples
          (ctrAfterFrom frames median det samples c j)).result = some t →
      (detect frames median det samples fuel c).1 = t ∧
      (detect frames median det samples fuel c).2.2 = j + 1 := by
  intro j
  induction j with
  | zero =>
    intro fuel c t hj hfail hsucc
    obtain ⟨n, rfl⟩ : ∃ n, fuel = n + 1 := ⟨fuel - 1, by omega⟩
    simp only [ctrAfterFrom] at hsucc
    simp only [detect, hsucc]
    simp
  | succ jn ih =>
    intro fuel c t hj hfail hsucc
    obtain ⟨n, rfl⟩ : ∃ n, fuel = n + 1 := ⟨fuel - 1, by omega⟩
    have h0 : (attemptStep frames median det samples c).result = none := by
      have := hfail 0 (Nat.succ_pos jn)
      simpa [ctrAfterFrom] using this
    have hrest := ih n (attemptStep frames median det samples c).ctr t
      (by omega) (fun k hk => hfail (k + 1) (Nat.succ_lt_succ hk)) hsucc
    simp only [detect, h0]
    exact ⟨hrest.1, by rw [hrest.2]⟩

/-- C7: in `LaserDetectionService.detect`, if every one of the
`max_detection_retries` attempts fails to yield a closest point the call
returns exactly `(None, None, None)` after performing all `fuel` attempts;
and if the first `j` attempts fail while attempt `j` succeeds with triple
`t`, the call returns `t` immediately after `j + 1` attempts — no further
attempts are made. -/
theorem detect_retry_policy {F : Type} (frames : ℕ → Option F) (median : List F → F)
    (det : F → F → DetTriple) (samples fuel j : ℕ) (t : DetTriple) :
    ((∀ k, k < fuel → (attemptStep frames median det samples
        (ctrAfterFrom frames median det samples 0 k)).result = none) →
      (detect frames median det samples fuel 0).1 = (none, none, none) ∧
      (detect frames median det samples fuel 0).2.2 = fuel)
    ∧ (j < fuel →
      (∀ k, k < j → (attemptStep frames median det samples
          (ctrAfterFrom frames median det samples 0 k)).result = none) →
      (attemptStep frames median det samples
          (ctrAfterFrom frames median det samples 0 j)).result = some t →
      (detect frames median det samples fuel 0).1 = t ∧
      (detect frames median det samples fuel 0).2.2 = j + 1) :=
  ⟨detect_exhaust frames median det samples fuel 0,
   fun hj hfail hsucc => detect_first_succ frames median det samples j fuel 0 t hj hfail hsucc⟩

/-- C7 witness: with no frames ever available both of 2 attempts fail and
the `(None, None, None)` triple is returned; with frames available and a
detector that reports a closest point, the first of 3 attempts succeeds and
its triple is returned after exactly one attempt. -/
theorem detect_retry_policy_witness :
    ((detect (fun _ => (none : Option ℕ)) (fun _ => 0) (fun _ _ => (none, none, none)) 1 2 0).1
        = (none, none, none) ∧
     (detect (fun _ => (none : Option ℕ)) (fun _ => 0) (fun _ _ => (none, none, none)) 1 2 0).2.2
        = 2)
    ∧ ((detect (fun _ => (some 0 : Option ℕ)) (fun _ => 0)
          (fun _ _ => (none, none, some (1, 2))) 1 3 0).1 = (none, none, some (1, 2)) ∧
       (detect (fun _ => (some 0 : Option ℕ)) (fun _ => 0)
          (fun _ _ => (none, none, some (1, 2))) 1 3 0).2.2 = 1) := by
  constructor
  · exact (detect_retry_policy (fun _ => (none : Option ℕ)) (fun _ => 0)
      (fun _ _ => (none, none, none)) 1 2 0 (none, none, none)).1
      (by intro k hk; interval_cases k <;> rfl)
  · exact (detect_retry_policy (fun _ => (some 0 : Option ℕ)) (fun _ => 0)
      (fun _ _ => (none, none, some (1, 2))) 1 3 0 (none, none, some (1, 2))).2
      (by omega) (by intro k hk; omega) (by rfl)

-- A list with a unique occurrence of `a` splits at `a` in only one way.
lemma split_at_unique_occurrence {α : Type} {a : α} :
    ∀ (A : List α) {B xs ys : List α}, A ++ a :: B = xs ++ a :: ys →
      a ∉ A → a ∉ B → xs = A ∧ ys = B := by
  intro A
  induction A with
  | nil =>
    intro B xs ys h hA hB
    cases xs with
    | nil =>
      simp only [List.nil_append, List.cons.injEq] at h
      exact ⟨rfl, h.2.symm⟩
    | cons x xs2 =>
      simp only [List.nil_append, List.cons_append, List.cons.injEq] at h
      obtain ⟨h1, h2⟩ := h
      subst h1
      exact absurd (by rw [h2]; exact List.mem_append_right _ (List.mem_cons_self a ys)) hB
  | cons c A2 ih =>
    intro B xs ys h hA hB
    cases xs with
    | nil =>
      simp only [List.cons_append, List.nil_append, List.cons.injEq] at h
      obtain ⟨h1, _⟩ := h
      exact absurd (h1 ▸ List.mem_cons_self c A2) hA
    | cons x xs2 =>
      simp only [List.cons_append, List.cons.injEq] at h
      obtain ⟨h1, h2⟩ := h
      have hr := ih h2 (fun hm => hA (List.mem_cons_of_mem c hm)) hB
      exact ⟨by rw [← h1, hr.1], hr.2⟩

/-- C8: within one attempt of `detect`, every split of the external action
trace at the `turnOn` command has all OFF captures and the OFF-median
computation strictly before it and all ON captures strictly after it: the
OFF phase completes (captures and median) before the laser is commanded ON,
never interleaved. -/
theorem attemptStep_off_before_on {F : Type} (frames : ℕ → Option F) (median : List F → F)
    (det : F → F → DetTriple) (samples ctr : ℕ) (xs ys : List AcqEvent)
    (hsplit : (attemptStep frames median det samples ctr).events
        = xs ++ AcqEvent.turnOn :: ys) :
    AcqEvent.captureOff ∉ ys ∧ AcqEvent.medianOff ∉ ys ∧
    AcqEvent.captureOn ∉ xs ∧ AcqEvent.medianOff ∈ xs := by
  simp only [attemptStep] at hsplit
  split_ifs at hsplit with h1 h2
  · exfalso
    have hmem : AcqEvent.turnOn ∈ xs ++ AcqEvent.turnOn :: ys := by simp
    rw [← hsplit] at hmem
    simp [List.mem_replicate] at hmem
  · have heq : (AcqEvent.turnOff :: List.replicate samples AcqEvent.captureOff) ++
        [AcqEvent.medianOff, AcqEvent.turnOn] ++ List.replicate samples AcqEvent.captureOn
        = (AcqEvent.turnOff :: (List.replicate samples AcqEvent.captureOff ++
            [AcqEvent.medianOff]))
          ++ AcqEvent.turnOn :: List.replicate samples AcqEvent.captureOn := by
      simp
    rw [heq] at hsplit
    have hr := split_at_unique_occurrence _ hsplit
      (by simp [List.mem_replicate]) (by simp [List.mem_replicate])
    rw [hr.1, hr.2]
    exact ⟨by simp [List.mem_replicate], by simp [List.mem_replicate],
      by simp [List.mem_replicate], by simp⟩
  · have heq : (AcqEvent.turnOff :: List.replicate samples AcqEvent.captureOff) ++
        [AcqEvent.medianOff, AcqEvent.turnOn] ++ List.replicate samples AcqEvent.captureOn
          ++ [AcqEvent.medianOn, AcqEvent.runDetector]
        = (AcqEvent.turnOff :: (List.replicate samples AcqEvent.captureOff ++
            [AcqEvent.medianOff]))
          ++ AcqEvent.turnOn :: (List.replicate samples AcqEvent.captureOn ++
            [AcqEvent.medianOn, AcqEvent.runDetector]) := by
      simp
    rw [heq] at hsplit
    have hr := split_at_unique_occurrence _ hsplit
      (by simp [List.mem_replicate]) (by simp [List.mem_replicate])
    rw [hr.1, hr.2]
    exact ⟨by simp [List.mem_replicate], by simp [List.mem_replicate],
      by simp [List.mem_replicate], by simp⟩

/-- C8 witness: the unique `turnOn` split of a complete one-sample attempt
trace `[turnOff, captureOff, medianOff, turnOn, captureOn, medianOn,
runDetector]` satisfies the ordering conclusions. -/
theorem attemptStep_off_before_on_witness :
    AcqEvent.captureOff ∉ ([AcqEvent.captureOn, AcqEvent.medianOn, AcqEvent.runDetector] :
        List AcqEvent) ∧
    AcqEvent.medianOff ∉ ([AcqEvent.captureOn, AcqEvent.medianOn, AcqEvent.runDetector] :
        List AcqEvent) ∧
    AcqEvent.captureOn ∉ ([AcqEvent.turnOff, AcqEvent.captureOff, AcqEvent.medianOff] :
        List AcqEvent) ∧
    AcqEvent.medianOff ∈ ([AcqEvent.turnOff, AcqEvent.captureOff, AcqEvent.medianOff] :
        List AcqEvent) :=
  attemptStep_off_before_on (fun _ => (some 0 : Option ℕ)) (fun _ => 0)
    (fun _ _ => (none, none, none)) 1 0
    [AcqEvent.turnOff, AcqEvent.captureOff, AcqEvent.medianOff]
    [AcqEvent.captureOn, AcqEvent.medianOn, AcqEvent.runDetector] (by rfl)

end VisionPlugin
